import Mathlib

/-!
Verification of the sentiment-analysis per-post inference pipeline.

Shallow embedding of:
  src/ml/api/schemas.py        — the frozen request/response shapes
  src/ml/api/predict.py        — predict_post / predict_batch / _stub_response /
                                 _real_pipeline
  src/backend/app/routes/predict.py — create_prediction (DB insert decisions)
  src/backend/app/models.py    — the CrisisAlert persisted record shape

Python floats are modelled as rationals (ℚ), Python dicts as association
lists, timestamps as integers, `Optional[str]` as `Option String`.
Modules imported by predict.py that are not part of this repository snapshot
(src.preprocessing.cleaner, src.brand.detector, src.models.*,
src.attribution.engine) are modelled from the spec, as marked below.
-/

/-- Mirrors schemas.SentimentResult: label, score, is_sarcastic, sarcasm_score. -/
structure SentimentResult where
  label : String
  score : ℚ
  is_sarcastic : Bool
  sarcasm_score : ℚ
  deriving DecidableEq, Repr

/-- Mirrors schemas.BrandSentimentResult: brand, sentiment, score, method. -/
structure BrandSentimentResult where
  brand : String
  sentiment : String
  score : ℚ
  method : String
  deriving DecidableEq, Repr

/-- Mirrors schemas.EmotionResult; the Python dict is an association list. -/
structure EmotionResult where
  emotions : List (String × ℚ)
  top_emotion : String
  deriving DecidableEq, Repr

/-- Mirrors schemas.TopicResult. -/
structure TopicResult where
  topic_id : Int
  label : String
  keywords : List String
  deriving DecidableEq, Repr

/-- Mirrors schemas.CrisisResult. -/
structure CrisisResult where
  crisis_flag : Bool
  severity : Option String
  deriving DecidableEq, Repr

/-- Mirrors schemas.PredictionResponse; processed_at is an integer timestamp. -/
structure PredictionResponse where
  text : String
  platform : String
  overall : SentimentResult
  brands : List BrandSentimentResult
  emotions : EmotionResult
  topic : TopicResult
  crisis : CrisisResult
  processed_at : Int
  deriving DecidableEq, Repr

/-- Mirrors schemas.PredictionRequest. -/
structure PredictionRequest where
  text : String
  brand : Option String := none
  platform : String := "reddit"
  context_posts : List String := []
  deriving DecidableEq, Repr

/-- Mirrors schemas.BatchPredictionRequest. -/
structure BatchPredictionRequest where
  posts : List PredictionRequest
  brand : Option String := none
  deriving DecidableEq, Repr

/-- Mirrors schemas.BatchPredictionResponse. -/
structure BatchPredictionResponse where
  results : List PredictionResponse
  total : Int
  processed_at : Int
  deriving DecidableEq, Repr

/-- Modelled from the spec: a located brand reference (spec §3 BrandMention),
the output shape of src.brand.detector.detect_with_positions, which is not
under src/. -/
structure BrandMention where
  brand : String
  start : Nat
  stop : Nat
  deriving DecidableEq, Repr

/-- The raw dict returned by the sentiment model: keys "label", "score". -/
structure ModelSentiment where
  label : String
  score : ℚ
  deriving DecidableEq, Repr

/-- The raw dict returned by the sarcasm model: keys "is_sarcastic", "score". -/
structure ModelSarcasm where
  is_sarcastic : Bool
  score : ℚ
  deriving DecidableEq, Repr

/-- The raw dict returned by the emotion model. -/
structure ModelEmotion where
  emotions : List (String × ℚ)
  top_emotion : String
  deriving DecidableEq, Repr

/-- The raw dict returned by the topic model. -/
structure ModelTopic where
  topic_id : Int
  label : String
  keywords : List String
  deriving DecidableEq, Repr

/-- Modelled from the spec: the modules predict.py imports that are not under
src/ — src.preprocessing.cleaner.clean, src.brand.detector.detect and
detect_with_positions, and the four model capabilities, which the spec (§4.3,
§9) treats as opaque pure `text -> result` functions.  They are parameters of
the embedding; `local_sentiment` is the bounded-context scorer the spec's
comparative attribution (§4.4) derives a per-mention sentiment from. -/
structure PipelineEnv where
  clean : String → String → String
  detect : String → List String
  detect_with_positions : String → List BrandMention
  sentiment_predict : String → ModelSentiment
  sarcasm_predict : String → ModelSarcasm
  emotion_predict : String → ModelEmotion
  topic_predict : String → ModelTopic
  local_sentiment : String → BrandMention → ModelSentiment

/-- Python `a or dflt` for `a : Optional[str]`: None and "" are falsy. -/
def pyOrStr (a : Option String) (dflt : String) : String :=
  match a with
  | some s => if s = "" then dflt else s
  | none => dflt

/-- Python `a or b` for two `Optional[str]` values: None and "" are falsy. -/
def pyOrOpt (a b : Option String) : Option String :=
  match a with
  | some s => if s = "" then b else some s
  | none => b

/-- Python `s[:n]`: the first n code points of s (all of s when shorter). -/
def pySlice (s : String) (n : Nat) : String :=
  ⟨s.data.take n⟩

/-- Mirrors predict.py STUB_MODE = True (line 52, as shipped). -/
def STUB_MODE : Bool := true

/-- Mirrors predict.py _stub_response (lines 129-166): canned positive output;
`text=text[:500]`, `detected_brand = brand or "Nike"`. -/
def stub_response (text : String) (brand : Option String) (platform : String)
    (now : Int) : PredictionResponse :=
  let detected_brand := pyOrStr brand "Nike"
  { text := pySlice text 500
    platform := platform
    overall := { label := "positive", score := 91/100, is_sarcastic := false,
                 sarcasm_score := 3/100 }
    brands := [{ brand := detected_brand, sentiment := "positive",
                 score := 91/100, method := "default" }]
    emotions := { emotions := [("joy", 72/100), ("admiration", 41/100)],
                  top_emotion := "joy" }
    topic := { topic_id := 0, label := "placeholder_topic",
               keywords := ["placeholder"] }
    crisis := { crisis_flag := false, severity := none }
    processed_at := now }

/-- Modelled from the spec: label inversion of §4.4 sarcasm override
(positive↔negative, neutral unchanged). -/
def invertLabel (l : String) : String :=
  if l = "positive" then "negative"
  else if l = "negative" then "positive"
  else l

/-- Modelled from the spec: the sarcasm confidence threshold of §4.4 is named
but not given a value by the spec; fixed here. -/
def sarcasmThreshold : ℚ := 1/2

/-- Modelled from the spec (§4.4): the entry one brand receives before the
sarcasm override — a located mention gets, when several brands compete, a
local sentiment from a bounded context around its span (method
"comparative"); otherwise the brand inherits the sentence-level sentiment
(method "default"). -/
def baseEntry (localSent : String → BrandMention → ModelSentiment)
    (text : String) (multi : Bool) (sentiment_result : ModelSentiment)
    (brand_positions : List BrandMention) (b : String) : BrandSentimentResult :=
  match (brand_positions.filter (fun m => m.brand == b)).head? with
  | some m =>
      if multi then
        let ls := localSent text m
        { brand := b, sentiment := ls.label, score := ls.score,
          method := "comparative" }
      else
        { brand := b, sentiment := sentiment_result.label,
          score := sentiment_result.score, method := "default" }
  | none =>
      { brand := b, sentiment := sentiment_result.label,
        score := sentiment_result.score, method := "default" }

/-- Modelled from the spec (§4.4): the sarcasm override applied to one entry —
label inverted, score reweighted by (1 − sarcasm_score), method
"conflict_resolved". -/
def sarcInvert (sarcasm_score : ℚ) (r : BrandSentimentResult) :
    BrandSentimentResult :=
  { brand := r.brand, sentiment := invertLabel r.sentiment,
    score := r.score * (1 - sarcasm_score), method := "conflict_resolved" }

/-- Modelled from the spec: src.attribution.engine.attribute is not under
src/.  Spec §4.4: each detected brand gets its base entry; if the sarcasm
result is sarcastic above the confidence threshold, every entry is put
through the sarcasm override. -/
def attribute_engine (localSent : String → BrandMention → ModelSentiment)
    (text : String) (detected_brands : List String)
    (sentiment_result : ModelSentiment) (sarcasm_result : ModelSarcasm)
    (brand_positions : List BrandMention) : List BrandSentimentResult :=
  let base := detected_brands.map
    (baseEntry localSent text (decide (1 < detected_brands.length))
      sentiment_result brand_positions)
  if sarcasm_result.is_sarcastic && decide (sarcasm_result.score > sarcasmThreshold) then
    base.map (sarcInvert sarcasm_result.score)
  else base

/-- One merge step of resolve_conflicts: if the accumulator already holds the
brand, keep the higher-confidence entry; otherwise append. -/
def mergeStep (acc : List BrandSentimentResult) (r : BrandSentimentResult) :
    List BrandSentimentResult :=
  if acc.any (fun a => a.brand == r.brand) then
    acc.map (fun a => if a.brand == r.brand && decide (r.score > a.score) then r else a)
  else acc ++ [r]

/-- Modelled from the spec: src.attribution.engine.resolve_conflicts is not
under src/.  Spec §4.4 output ordering: brands appear in first-detection
order and duplicate brand entries are merged keeping the highest-confidence
entry. -/
def resolve_conflicts (results : List BrandSentimentResult) :
    List BrandSentimentResult :=
  results.foldl mergeStep []

/-- Mirrors predict.py line 206: the sarcasm context window,
`" ".join(context_posts[-3:] + [clean_text])` — the Python slice `[-3:]`
keeps the last three elements (the whole list when shorter). -/
def context_window (context_posts : List String) (clean_text : String) : String :=
  String.intercalate " "
    (context_posts.drop (context_posts.length - 3) ++ [clean_text])

/-- Mirrors predict.py _real_pipeline (lines 173-260), with the missing
imported modules supplied by `env`.  The empty-clean short-circuit (lines
194-195) returns _stub_response; the sarcasm input is
`" ".join(context_posts[-3:] + [clean_text])` (line 206); the per-post crisis
flag is `label == "negative" and score > 0.85` (line 226). -/
def real_pipeline (env : PipelineEnv) (text : String) (brand : Option String)
    (platform : String) (context_posts : List String) (now : Int) :
    PredictionResponse :=
  let clean_text := env.clean text platform
  if clean_text = "" then stub_response text brand platform now
  else
    let detected0 := env.detect clean_text
    let brand_positions := env.detect_with_positions clean_text
    let detected_brands :=
      match brand with
      | some b => if b ≠ "" && !(detected0.contains b) then detected0 ++ [b]
                  else detected0
      | none => detected0
    let sentiment_result := env.sentiment_predict clean_text
    let sarcasm_result := env.sarcasm_predict (context_window context_posts clean_text)
    let brand_results := resolve_conflicts
      (attribute_engine env.local_sentiment clean_text detected_brands
        sentiment_result sarcasm_result brand_positions)
    let emotion_result := env.emotion_predict clean_text
    let topic_result := env.topic_predict clean_text
    let crisis_flag := sentiment_result.label == "negative"
      && decide (sentiment_result.score > 85/100)
    { text := clean_text
      platform := platform
      overall := { label := sentiment_result.label,
                   score := sentiment_result.score,
                   is_sarcastic := sarcasm_result.is_sarcastic,
                   sarcasm_score := sarcasm_result.score }
      brands := brand_results
      emotions := { emotions := emotion_result.emotions,
                    top_emotion := emotion_result.top_emotion }
      topic := { topic_id := topic_result.topic_id,
                 label := topic_result.label,
                 keywords := topic_result.keywords }
      crisis := { crisis_flag := crisis_flag,
                  severity := if crisis_flag then some "high" else none }
      processed_at := now }

/-- Mirrors predict.py predict_post (lines 78-101): branch on the STUB_MODE
global (passed explicitly here). -/
def predict_post (stubMode : Bool) (env : PipelineEnv) (text : String)
    (brand : Option String) (platform : String) (context_posts : List String)
    (now : Int) : PredictionResponse :=
  if stubMode then stub_response text brand platform now
  else real_pipeline env text brand platform context_posts now

/-- Mirrors predict.py predict_batch (lines 104-122): one independent
predict_post call per post, `brand=p.brand or request.brand`,
`total=len(results)`. -/
def predict_batch (stubMode : Bool) (env : PipelineEnv)
    (request : BatchPredictionRequest) (now : Int) : BatchPredictionResponse :=
  let results := request.posts.map (fun p =>
    predict_post stubMode env p.text (pyOrOpt p.brand request.brand)
      p.platform p.context_posts now)
  { results := results, total := results.length, processed_at := now }

/-- Splits a character list into maximal whitespace-free words. -/
def splitWordsAux : List Char → List Char → List (List Char)
  | [], acc => if acc = [] then [] else [acc.reverse]
  | c :: cs, acc =>
      if c.isWhitespace then
        if acc = [] then splitWordsAux cs []
        else acc.reverse :: splitWordsAux cs []
      else splitWordsAux cs (c :: acc)

/-- Joins words with single spaces. -/
def joinWords : List (List Char) → List Char
  | [] => []
  | [w] => w
  | w :: ws => w ++ ' ' :: joinWords ws

/-- Modelled from the spec: src.preprocessing.cleaner.clean is not under
src/.  Spec §4.1: collapses whitespace, lower-cases, returns empty to signal
"nothing usable"; the platform-specific stripping rules are unspecified and
not modelled. Used only to instantiate the concrete witnesses below. -/
def specClean (text : String) (platform : String) : String :=
  ⟨joinWords (splitWordsAux (text.data.map Char.toLower) [])⟩

/-- Mirrors models.LivePost (the columns routes/predict.py fills). -/
structure LivePost where
  id : String
  platform : String
  brand : Option String
  full_text : String
  created_utc : Int
  deriving DecidableEq, Repr

/-- Mirrors models.Prediction (the columns routes/predict.py fills). -/
structure PredictionRow where
  post_id : String
  brand : String
  sentiment : String
  sentiment_score : ℚ
  is_sarcastic : Bool
  sarcasm_score : ℚ
  emotions : List (String × ℚ)
  topic_id : Option Int
  topic_label : Option String
  crisis_flag : Bool
  deriving DecidableEq, Repr

/-- Mirrors models.CrisisAlert (the columns routes/predict.py fills). -/
structure CrisisAlertRow where
  brand : Option String
  alert_type : String
  severity : Option String
  message : String
  negative_pct : ℚ
  z_score : ℚ
  window_posts : Int
  deriving DecidableEq, Repr

/-- The rows a call of the /predict route inserts. -/
structure DbInserts where
  posts : List LivePost
  predictions : List PredictionRow
  alerts : List CrisisAlertRow
  deriving DecidableEq, Repr

/-- Python str(x) for `x : Optional[str]`, as an f-string renders it. -/
def pyStrOpt (a : Option String) : String :=
  match a with
  | some s => s
  | none => "None"

/-- Mirrors routes/predict.py create_prediction (lines 14-72): call
predict_post, insert one LivePost, one Prediction per entry of
result.brands, and — if result.crisis.crisis_flag — one CrisisAlert with
negative_pct=0.0, z_score=0.0, window_posts=1.  The fresh uuid and the db
session are passed as `post_id` and returned as inserted rows. -/
def create_prediction (stubMode : Bool) (env : PipelineEnv)
    (request : PredictionRequest) (post_id : String) (now : Int) :
    PredictionResponse × DbInserts :=
  let result := predict_post stubMode env request.text request.brand
    request.platform request.context_posts now
  let new_post : LivePost :=
    { id := post_id, platform := request.platform, brand := request.brand,
      full_text := request.text, created_utc := result.processed_at }
  let predictions := result.brands.map (fun brand_result =>
    { post_id := post_id
      brand := brand_result.brand
      sentiment := brand_result.sentiment
      sentiment_score := brand_result.score
      is_sarcastic := result.overall.is_sarcastic
      sarcasm_score := result.overall.sarcasm_score
      emotions := result.emotions.emotions
      topic_id := some result.topic.topic_id
      topic_label := some result.topic.label
      crisis_flag := result.crisis.crisis_flag : PredictionRow })
  let alerts : List CrisisAlertRow :=
    if result.crisis.crisis_flag then
      [{ brand := request.brand
         alert_type := "spike"
         severity := result.crisis.severity
         message := "Crisis detected for " ++ pyStrOpt request.brand
         negative_pct := 0
         z_score := 0
         window_posts := 1 }]
    else []
  (result, { posts := [new_post], predictions := predictions, alerts := alerts })

/-- Modelled from the spec: the CrisisAggregator (§4.6) exists nowhere under
src/; its alert threshold rule, per §4.6 step 6, fires when the rolling
window's z-score exceeds an alert threshold or its negative percentage
exceeds an absolute ceiling.  The spec names but does not fix the two
thresholds; representative positive values are fixed here. -/
def z_alert_threshold : ℚ := 2

/-- Modelled from the spec: the absolute negative-percentage ceiling of
§4.6 step 6 (value unspecified in the spec; fixed here). -/
def negative_pct_ceiling : ℚ := 1/2

/-- Modelled from the spec: the CrisisAggregator threshold rule of §4.6
step 6. -/
def aggregator_rule_fires (z_score negative_pct : ℚ) : Bool :=
  decide (z_score > z_alert_threshold) || decide (negative_pct > negative_pct_ceiling)

/-- A concrete environment used by witnesses: the spec-modelled cleaner, no
detected brands, a fixed positive non-sarcastic model. -/
def envPos : PipelineEnv :=
  { clean := specClean
    detect := fun _ => []
    detect_with_positions := fun _ => []
    sentiment_predict := fun _ => { label := "positive", score := 9/10 }
    sarcasm_predict := fun _ => { is_sarcastic := false, score := 1/10 }
    emotion_predict := fun _ => { emotions := [("joy", 1/2)], top_emotion := "joy" }
    topic_predict := fun _ => { topic_id := 0, label := "t", keywords := [] }
    local_sentiment := fun _ _ => { label := "neutral", score := 1/2 } }

/-- A concrete environment whose sentiment model is strongly negative. -/
def envNeg : PipelineEnv :=
  { envPos with sentiment_predict := fun _ => { label := "negative", score := 9/10 } }

/-- A concrete environment whose sarcasm model fires above the threshold. -/
def envSarc : PipelineEnv :=
  { envPos with sarcasm_predict := fun _ => { is_sarcastic := true, score := 9/10 } }

/-- A concrete environment whose cleaner rejects every text as unusable. -/
def envEmptyClean : PipelineEnv :=
  { envPos with clean := fun _ _ => "" }

/-- A concrete environment with the identity cleaner, used where a witness
must evaluate: no detected brands, fixed positive non-sarcastic model. -/
def envId : PipelineEnv :=
  { envPos with clean := fun t _ => t }

/-- envId with a strongly negative sentiment model. -/
def envIdNeg : PipelineEnv :=
  { envId with sentiment_predict := fun _ => { label := "negative", score := 9/10 } }

/-- envId with a sarcasm model firing above the threshold. -/
def envIdSarc : PipelineEnv :=
  { envId with sarcasm_predict := fun _ => { is_sarcastic := true, score := 9/10 } }

/-- C10: as shipped (STUB_MODE = True), predict_post ignores the pipeline and
returns the stub for every input: overall "positive"/0.91, non-sarcastic,
crisis_flag false with severity none, exactly one brand entry — the requested
brand, "Nike" when none is requested — with method "default", and text equal
to the first 500 characters of the raw input. -/
theorem stub_mode_returns_stub_everywhere (env : PipelineEnv) (text : String)
    (brand : Option String) (platform : String) (ctx : List String) (now : Int)
    (hb : brand ≠ some "") :
    predict_post STUB_MODE env text brand platform ctx now =
      { text := pySlice text 500
        platform := platform
        overall := { label := "positive", score := 91/100, is_sarcastic := false,
                     sarcasm_score := 3/100 }
        brands := [{ brand := brand.getD "Nike", sentiment := "positive",
                     score := 91/100, method := "default" }]
        emotions := { emotions := [("joy", 72/100), ("admiration", 41/100)],
                      top_emotion := "joy" }
        topic := { topic_id := 0, label := "placeholder_topic",
                   keywords := ["placeholder"] }
        crisis := { crisis_flag := false, severity := none }
        processed_at := now } := by
  cases brand with
  | none => simp [predict_post, STUB_MODE, stub_response, pyOrStr]
  | some b =>
    have hb' : b ≠ "" := fun h => hb (by rw [h])
    simp [predict_post, STUB_MODE, stub_response, pyOrStr, hb']

theorem stub_mode_returns_stub_everywhere_witness :
    predict_post STUB_MODE envId "Adidas is great" (some "Adidas") "news"
        ["earlier post"] 3 =
      { text := pySlice "Adidas is great" 500
        platform := "news"
        overall := { label := "positive", score := 91/100, is_sarcastic := false,
                     sarcasm_score := 3/100 }
        brands := [{ brand := "Adidas", sentiment := "positive",
                     score := 91/100, method := "default" }]
        emotions := { emotions := [("joy", 72/100), ("admiration", 41/100)],
                      top_emotion := "joy" }
        topic := { topic_id := 0, label := "placeholder_topic",
                   keywords := ["placeholder"] }
        crisis := { crisis_flag := false, severity := none }
        processed_at := 3 } :=
  stub_mode_returns_stub_everywhere envId "Adidas is great" (some "Adidas")
    "news" ["earlier post"] 3 (by decide)

/-- C2: for every input (both the stub and the real pipeline, including the
empty-clean short-circuit), the response satisfies crisis_flag = (overall
label is "negative" and overall score > 0.85), and severity is "high" exactly
when the flag is set — a deterministic, stateless function of the sentiment
result. -/
theorem crisis_flag_rule (stubMode : Bool) (env : PipelineEnv) (text : String)
    (brand : Option String) (platform : String) (ctx : List String) (now : Int) :
    (predict_post stubMode env text brand platform ctx now).crisis.crisis_flag
      = (((predict_post stubMode env text brand platform ctx now).overall.label
            == "negative")
         && decide ((predict_post stubMode env text brand platform ctx now).overall.score
            > 85/100))
    ∧ (predict_post stubMode env text brand platform ctx now).crisis.severity
      = (if (predict_post stubMode env text brand platform ctx now).crisis.crisis_flag
         then some "high" else none) := by
  cases stubMode with
  | false =>
    by_cases h : env.clean text platform = "" <;>
      simp [predict_post, real_pipeline, h, stub_response]
  | true => simp [predict_post, stub_response]

/-- C6: two pipeline calls with identical text, brand, platform and context
(differing only in the clock) return identical overall, brands, emotions and
topic fields; the embedding is stateless, so there is no aggregator state to
intervene. -/
theorem pipeline_two_run_determinism (stubMode : Bool) (env : PipelineEnv)
    (text : String) (brand : Option String) (platform : String)
    (ctx : List String) (t1 t2 : Int) :
    (predict_post stubMode env text brand platform ctx t1).overall
      = (predict_post stubMode env text brand platform ctx t2).overall
    ∧ (predict_post stubMode env text brand platform ctx t1).brands
      = (predict_post stubMode env text brand platform ctx t2).brands
    ∧ (predict_post stubMode env text brand platform ctx t1).emotions
      = (predict_post stubMode env text brand platform ctx t2).emotions
    ∧ (predict_post stubMode env text brand platform ctx t1).topic
      = (predict_post stubMode env text brand platform ctx t2).topic := by
  cases stubMode with
  | false =>
    by_cases h : env.clean text platform = "" <;>
      simp [predict_post, real_pipeline, h, stub_response]
  | true => simp [predict_post, stub_response]

/-- C9: predict_batch returns, in order, exactly one independent predict_post
result per post of the request (per-post brand falling back to the batch
brand, Python-truthily), and total equals the number of results. -/
theorem batch_is_pointwise_predict (stubMode : Bool) (env : PipelineEnv)
    (request : BatchPredictionRequest) (now : Int) :
    (predict_batch stubMode env request now).results
      = request.posts.map (fun p =>
          predict_post stubMode env p.text (pyOrOpt p.brand request.brand)
            p.platform p.context_posts now)
    ∧ (predict_batch stubMode env request now).total
      = (request.posts.length : Int)
    ∧ (predict_batch stubMode env request now).total
      = ((predict_batch stubMode env request now).results.length : Int) := by
  refine ⟨rfl, ?_, rfl⟩
  simp [predict_batch]

/-- C7: the string handed to the sarcasm model is the space-joined
concatenation of exactly the last (up to 3) context posts followed by the
cleaned current text; the retained slice is a trailing slice of the context
list (order preserved, oldest dropped first) of length min 3 (length ctx). -/
theorem sarcasm_context_window (env : PipelineEnv) (text : String)
    (brand : Option String) (platform : String) (ctx : List String) (now : Int)
    (h : env.clean text platform ≠ "") :
    ((real_pipeline env text brand platform ctx now).overall.is_sarcastic
        = (env.sarcasm_predict (String.intercalate " "
            (ctx.drop (ctx.length - 3) ++ [env.clean text platform]))).is_sarcastic
     ∧ (real_pipeline env text brand platform ctx now).overall.sarcasm_score
        = (env.sarcasm_predict (String.intercalate " "
            (ctx.drop (ctx.length - 3) ++ [env.clean text platform]))).score)
    ∧ ctx.take (ctx.length - 3) ++ ctx.drop (ctx.length - 3) = ctx
    ∧ (ctx.drop (ctx.length - 3)).length = min 3 ctx.length := by
  refine ⟨⟨?_, ?_⟩, List.take_append_drop _ _, ?_⟩
  · simp [real_pipeline, h, context_window]
  · simp [real_pipeline, h, context_window]
  · rw [List.length_drop]; omega

theorem sarcasm_context_window_witness :
    (real_pipeline envId "hi" none "reddit" ["a", "b", "c", "d"] 0).overall.sarcasm_score
      = (envId.sarcasm_predict (String.intercalate " "
          ((["a", "b", "c", "d"]).drop ((["a", "b", "c", "d"]).length - 3)
            ++ [envId.clean "hi" "reddit"]))).score :=
  (sarcasm_context_window envId "hi" none "reddit" ["a", "b", "c", "d"] 0
    (by decide)).1.2

/-- C1 (amended): when normalization yields empty, _real_pipeline raises no
error and short-circuits to the well-formed stub placeholder — whose overall
sentiment is "positive" with score 0.91 (not neutral/low-confidence) and
whose crisis flag is clear. -/
theorem empty_clean_short_circuit (env : PipelineEnv) (text : String)
    (brand : Option String) (platform : String) (ctx : List String) (now : Int)
    (h : env.clean text platform = "") :
    real_pipeline env text brand platform ctx now
      = stub_response text brand platform now
    ∧ (real_pipeline env text brand platform ctx now).crisis.crisis_flag = false
    ∧ (real_pipeline env text brand platform ctx now).overall.label = "positive"
    ∧ (real_pipeline env text brand platform ctx now).overall.score = 91/100 := by
  refine ⟨?_, ?_, ?_, ?_⟩ <;> simp [real_pipeline, h, stub_response]

theorem empty_clean_short_circuit_witness :
    real_pipeline envEmptyClean "ok" none "reddit" [] 2
      = stub_response "ok" none "reddit" 2 :=
  (empty_clean_short_circuit envEmptyClean "ok" none "reddit" [] 2 rfl).1

/-- C1 (counterexample to the claim as stated): on an input whose
normalization is empty, the placeholder's overall label is "positive", not
"neutral", and its score 0.91 is not low. -/
theorem empty_clean_not_neutral_counterexample :
    envEmptyClean.clean "great shoes" "reddit" = ""
    ∧ (real_pipeline envEmptyClean "great shoes" none "reddit" [] 0).overall.label
        = "positive"
    ∧ ¬((real_pipeline envEmptyClean "great shoes" none "reddit" [] 0).overall.label
        = "neutral")
    ∧ ¬((real_pipeline envEmptyClean "great shoes" none "reddit" [] 0).overall.score
        ≤ 1/2) := by
  have hscore : (real_pipeline envEmptyClean "great shoes" none "reddit" [] 0).overall.score
      = 91/100 := by
    simp [real_pipeline, envEmptyClean, envPos, stub_response]
  refine ⟨rfl, by decide, by decide, ?_⟩
  rw [hscore]; norm_num

/-- C8 (amended): on the real pipeline's main path (nonempty cleaned text),
the response's text field is exactly the cleaned text. -/
theorem response_text_is_clean_text (env : PipelineEnv) (text : String)
    (brand : Option String) (platform : String) (ctx : List String) (now : Int)
    (h : env.clean text platform ≠ "") :
    (real_pipeline env text brand platform ctx now).text
      = env.clean text platform := by
  simp [real_pipeline, h]

theorem response_text_is_clean_text_witness :
    (real_pipeline envId "Nice Shoes" none "reddit" [] 0).text
      = envId.clean "Nice Shoes" "reddit" :=
  response_text_is_clean_text envId "Nice Shoes" none "reddit" [] 0 (by decide)

/-- C8 (counterexample to the claim as stated): as shipped (STUB_MODE =
True), the text field is the first 500 characters of the raw input, which
differs from the normalized form of the input. -/
theorem response_text_counterexample :
    (predict_post STUB_MODE envPos "HELLO  World" none "reddit" [] 0).text
        = "HELLO  World"
    ∧ envPos.clean "HELLO  World" "reddit" = "hello world"
    ∧ (predict_post STUB_MODE envPos "HELLO  World" none "reddit" [] 0).text
        ≠ envPos.clean "HELLO  World" "reddit" := by
  refine ⟨?_, ?_, ?_⟩ <;> decide

/-- A helper fact: 3/4 exceeds the modelled sarcasm confidence threshold. -/
theorem three_quarters_gt_threshold : (3/4 : ℚ) > sarcasmThreshold := by
  norm_num [sarcasmThreshold]

/-- C5: when the sarcasm result is sarcastic with score above the confidence
threshold, the attribution output is exactly the output of the run without
sarcasm on identical text, with every entry put through the override:
label inverted (positive↔negative, neutral unchanged), score reweighted by
(1 − sarcasm_score), method "conflict_resolved". -/
theorem sarcasm_inversion (localSent : String → BrandMention → ModelSentiment)
    (text : String) (brands : List String) (sent : ModelSentiment)
    (sarc sarc0 : ModelSarcasm) (pos : List BrandMention)
    (h1 : sarc.is_sarcastic = true) (h2 : sarc.score > sarcasmThreshold)
    (h0 : sarc0.is_sarcastic = false) :
    attribute_engine localSent text brands sent sarc pos
      = (attribute_engine localSent text brands sent sarc0 pos).map
          (sarcInvert sarc.score)
    ∧ ∀ r : BrandSentimentResult, sarcInvert sarc.score r
        = { brand := r.brand, sentiment := invertLabel r.sentiment,
            score := r.score * (1 - sarc.score), method := "conflict_resolved" } := by
  have hd : decide (sarc.score > sarcasmThreshold) = true := decide_eq_true h2
  exact ⟨by simp [attribute_engine, h1, h0, hd], fun r => rfl⟩

theorem sarcasm_inversion_witness :
    attribute_engine (fun _ _ => { label := "neutral", score := 1/2 }) "t" ["Nike"]
        { label := "positive", score := 9/10 }
        { is_sarcastic := true, score := 3/4 } []
      = (attribute_engine (fun _ _ => { label := "neutral", score := 1/2 }) "t" ["Nike"]
          { label := "positive", score := 9/10 }
          { is_sarcastic := false, score := 0 } []).map
          (sarcInvert (3/4)) :=
  (sarcasm_inversion (fun _ _ => { label := "neutral", score := 1/2 }) "t" ["Nike"]
    { label := "positive", score := 9/10 }
    { is_sarcastic := true, score := 3/4 }
    { is_sarcastic := false, score := 0 } [] rfl three_quarters_gt_threshold rfl).1

/-- Every base attribution entry carries the brand it was built for. -/
theorem baseEntry_brand (localSent : String → BrandMention → ModelSentiment)
    (text : String) (multi : Bool) (sent : ModelSentiment)
    (pos : List BrandMention) (b : String) :
    (baseEntry localSent text multi sent pos b).brand = b := by
  unfold baseEntry
  split
  · split <;> rfl
  · rfl

/-- The sarcasm override keeps the brand. -/
theorem sarcInvert_brand (s : ℚ) (r : BrandSentimentResult) :
    (sarcInvert s r).brand = r.brand := rfl

/-- Mapping brands over a pointwise-brand-preserving entry builder is the
identity. -/
theorem map_brand_pointwise (l : List String) (f : String → BrandSentimentResult)
    (hf : ∀ b, (f b).brand = b) :
    (l.map f).map (fun r => r.brand) = l := by
  induction l with
  | nil => rfl
  | cons a t ih => simp [hf a, ih]

/-- The attribution output lists exactly the detected brands, in order. -/
theorem attribute_engine_brands (localSent : String → BrandMention → ModelSentiment)
    (text : String) (brands : List String) (sent : ModelSentiment)
    (sarc : ModelSarcasm) (pos : List BrandMention) :
    (attribute_engine localSent text brands sent sarc pos).map (fun r => r.brand)
      = brands := by
  unfold attribute_engine
  split
  · rw [List.map_map]
    exact map_brand_pointwise brands _ (fun b => baseEntry_brand localSent text _ sent pos b)
  · exact map_brand_pointwise brands _ (fun b => baseEntry_brand localSent text _ sent pos b)

/-- Merging one entry never shrinks the accumulator. -/
theorem mergeStep_length_le (acc : List BrandSentimentResult)
    (r : BrandSentimentResult) : acc.length ≤ (mergeStep acc r).length := by
  unfold mergeStep
  split
  · simp
  · simp

/-- Folding merges never shrinks the accumulator. -/
theorem foldl_mergeStep_length (l : List BrandSentimentResult)
    (acc : List BrandSentimentResult) :
    acc.length ≤ (l.foldl mergeStep acc).length := by
  induction l generalizing acc with
  | nil => simp
  | cons r t ih =>
    rw [List.foldl_cons]
    exact le_trans (mergeStep_length_le acc r) (ih (mergeStep acc r))

/-- Conflict resolution of a nonempty list is nonempty. -/
theorem resolve_conflicts_ne_nil (l : List BrandSentimentResult) (h : l ≠ []) :
    resolve_conflicts l ≠ [] := by
  cases l with
  | nil => exact absurd rfl h
  | cons r t =>
    have hstep : mergeStep [] r = [r] := by unfold mergeStep; simp
    have h1 : 1 ≤ (resolve_conflicts (r :: t)).length := by
      unfold resolve_conflicts
      rw [List.foldl_cons, hstep]
      exact foldl_mergeStep_length t [r]
    intro hnil
    rw [hnil] at h1
    simp at h1

/-- A merge introduces no brand beyond the accumulator's and the new entry's. -/
theorem mergeStep_brand_mem (acc : List BrandSentimentResult)
    (r x : BrandSentimentResult) (hx : x ∈ mergeStep acc r) :
    x.brand ∈ acc.map (fun a => a.brand) ∨ x.brand = r.brand := by
  unfold mergeStep at hx
  split at hx
  · rcases List.mem_map.mp hx with ⟨a, ha, hax⟩
    by_cases hc : (a.brand == r.brand && decide (r.score > a.score)) = true
    · rw [if_pos hc] at hax
      right; rw [← hax]
    · rw [if_neg hc] at hax
      left; rw [← hax]; exact List.mem_map_of_mem _ ha
  · rcases List.mem_append.mp hx with h | h
    · left; exact List.mem_map_of_mem _ h
    · right; rw [List.mem_singleton.mp h]

/-- Folding merges introduces no brand beyond the accumulator's and the
input's. -/
theorem foldl_mergeStep_brand_mem (l : List BrandSentimentResult)
    (acc : List BrandSentimentResult) (x : BrandSentimentResult)
    (hx : x ∈ l.foldl mergeStep acc) :
    x.brand ∈ acc.map (fun a => a.brand) ∨ x.brand ∈ l.map (fun r => r.brand) := by
  induction l generalizing acc with
  | nil => left; simp at hx; exact List.mem_map_of_mem _ hx
  | cons r t ih =>
    rw [List.foldl_cons] at hx
    rcases ih (mergeStep acc r) hx with h | h
    · rcases List.mem_map.mp h with ⟨a, ha, hab⟩
      rcases mergeStep_brand_mem acc r a ha with h2 | h2
      · left; rw [← hab]; exact h2
      · right; rw [← hab, h2]; simp
    · right; simp [h]

/-- Appending an entry whose brand is new passes conflict resolution
untouched, as the last element. -/
theorem resolve_conflicts_concat_new (pre : List BrandSentimentResult)
    (e : BrandSentimentResult)
    (he : e.brand ∉ pre.map (fun r => r.brand)) :
    resolve_conflicts (pre ++ [e]) = resolve_conflicts pre ++ [e] := by
  unfold resolve_conflicts
  rw [List.foldl_append, List.foldl_cons, List.foldl_nil]
  have hall : ∀ a ∈ pre.foldl mergeStep [], ¬((fun a => a.brand == e.brand) a = true) := by
    intro a ha hab
    have hmem := foldl_mergeStep_brand_mem pre [] a ha
    simp only [List.map_nil, List.not_mem_nil, false_or] at hmem
    exact he ((eq_of_beq hab) ▸ hmem)
  have hany : (pre.foldl mergeStep []).any (fun a => a.brand == e.brand) = false :=
    List.any_eq_false.mpr hall
  have key : ∀ X : List BrandSentimentResult,
      X.any (fun a => a.brand == e.brand) = false → mergeStep X e = X ++ [e] := by
    intro X hX
    unfold mergeStep
    rw [hX]
    simp
  exact key _ hany

/-- Attribution over a brand list ending in a positionless brand b splits
off b's entry as the last element: the global-sentiment "default" entry,
put through the sarcasm override exactly when it fires; the prefix lists
the remaining brands in order. -/
theorem attribute_engine_concat (localSent : String → BrandMention → ModelSentiment)
    (text : String) (l : List String) (b : String) (sent : ModelSentiment)
    (sarc : ModelSarcasm) (pos : List BrandMention)
    (hpos : pos.filter (fun m => m.brand == b) = []) :
    ∃ P : List BrandSentimentResult,
      attribute_engine localSent text (l ++ [b]) sent sarc pos
        = P ++ [if sarc.is_sarcastic && decide (sarc.score > sarcasmThreshold)
                then sarcInvert sarc.score
                    { brand := b, sentiment := sent.label, score := sent.score,
                      method := "default" }
                else { brand := b, sentiment := sent.label, score := sent.score,
                       method := "default" }]
      ∧ P.map (fun r => r.brand) = l := by
  have hbe : ∀ multi : Bool, baseEntry localSent text multi sent pos b
      = { brand := b, sentiment := sent.label, score := sent.score,
          method := "default" } := by
    intro multi
    unfold baseEntry
    rw [hpos]
    rfl
  simp only [attribute_engine]
  rw [List.map_append]
  by_cases hf : (sarc.is_sarcastic && decide (sarc.score > sarcasmThreshold)) = true
  · rw [if_pos hf, if_pos hf, List.map_append]
    refine ⟨(l.map (baseEntry localSent text (decide (1 < (l ++ [b]).length)) sent pos)).map
      (sarcInvert sarc.score), ?_, ?_⟩
    · simp [hbe]
    · rw [List.map_map]
      exact map_brand_pointwise l _
        (fun c => baseEntry_brand localSent text _ sent pos c)
  · rw [if_neg hf, if_neg hf]
    refine ⟨l.map (baseEntry localSent text (decide (1 < (l ++ [b]).length)) sent pos),
      ?_, ?_⟩
    · simp [hbe]
    · exact map_brand_pointwise l _
        (fun c => baseEntry_brand localSent text _ sent pos c)

/-- C4 (amended): whenever a brand is detected or explicitly requested, the
response's brands list is nonempty; a requested-but-undetected (and
unpositioned) brand always appears, as the last entry, carrying the global
sentiment — with method "default" when the sarcasm override does not fire,
and put through sarcInvert (method "conflict_resolved") when it does. -/
theorem requested_brand_always_present (env : PipelineEnv) (text : String)
    (platform : String) (ctx : List String) (now : Int) (b : String)
    (hb : b ≠ "")
    (hclean : env.clean text platform ≠ "")
    (hdet : b ∉ env.detect (env.clean text platform))
    (hpos : (env.detect_with_positions (env.clean text platform)).filter
        (fun m => m.brand == b) = []) :
    (real_pipeline env text (some b) platform ctx now).brands ≠ []
    ∧ (real_pipeline env text (some b) platform ctx now).brands.getLast?
        = some (if (env.sarcasm_predict (context_window ctx (env.clean text platform))).is_sarcastic
                  && decide ((env.sarcasm_predict (context_window ctx (env.clean text platform))).score
                      > sarcasmThreshold)
                then sarcInvert
                    (env.sarcasm_predict (context_window ctx (env.clean text platform))).score
                    { brand := b
                      sentiment := (env.sentiment_predict (env.clean text platform)).label
                      score := (env.sentiment_predict (env.clean text platform)).score
                      method := "default" }
                else { brand := b
                       sentiment := (env.sentiment_predict (env.clean text platform)).label
                       score := (env.sentiment_predict (env.clean text platform)).score
                       method := "default" })
    ∧ (env.detect (env.clean text platform) ≠ [] →
        (real_pipeline env text none platform ctx now).brands ≠ []) := by
  have hcont : (env.detect (env.clean text platform)).contains b = false := by
    simpa using hdet
  have hcond : (decide (b ≠ "") && !((env.detect (env.clean text platform)).contains b))
      = true := by
    rw [hcont, decide_eq_true hb]
    rfl
  have hbrands : (real_pipeline env text (some b) platform ctx now).brands
      = resolve_conflicts (attribute_engine env.local_sentiment
          (env.clean text platform)
          (env.detect (env.clean text platform) ++ [b])
          (env.sentiment_predict (env.clean text platform))
          (env.sarcasm_predict (context_window ctx (env.clean text platform)))
          (env.detect_with_positions (env.clean text platform))) := by
    simp only [real_pipeline]
    rw [if_neg hclean]
    simp only [hcond, if_true]
  obtain ⟨P, hPeq, hPb⟩ := attribute_engine_concat env.local_sentiment
    (env.clean text platform) (env.detect (env.clean text platform)) b
    (env.sentiment_predict (env.clean text platform))
    (env.sarcasm_predict (context_window ctx (env.clean text platform)))
    (env.detect_with_positions (env.clean text platform)) hpos
  have hEb : (if (env.sarcasm_predict (context_window ctx (env.clean text platform))).is_sarcastic
        && decide ((env.sarcasm_predict (context_window ctx (env.clean text platform))).score
            > sarcasmThreshold)
      then sarcInvert
          (env.sarcasm_predict (context_window ctx (env.clean text platform))).score
          { brand := b
            sentiment := (env.sentiment_predict (env.clean text platform)).label
            score := (env.sentiment_predict (env.clean text platform)).score
            method := "default" }
      else { brand := b
             sentiment := (env.sentiment_predict (env.clean text platform)).label
             score := (env.sentiment_predict (env.clean text platform)).score
             method := "default" }).brand = b := by
    split <;> rfl
  have hres : (real_pipeline env text (some b) platform ctx now).brands
      = resolve_conflicts P
        ++ [if (env.sarcasm_predict (context_window ctx (env.clean text platform))).is_sarcastic
              && decide ((env.sarcasm_predict (context_window ctx (env.clean text platform))).score
                  > sarcasmThreshold)
            then sarcInvert
                (env.sarcasm_predict (context_window ctx (env.clean text platform))).score
                { brand := b
                  sentiment := (env.sentiment_predict (env.clean text platform)).label
                  score := (env.sentiment_predict (env.clean text platform)).score
                  method := "default" }
            else { brand := b
                   sentiment := (env.sentiment_predict (env.clean text platform)).label
                   score := (env.sentiment_predict (env.clean text platform)).score
                   method := "default" }] := by
    rw [hbrands, hPeq]
    exact resolve_conflicts_concat_new P _ (by rw [hEb, hPb]; exact hdet)
  refine ⟨?_, ?_, ?_⟩
  · rw [hres]; simp
  · rw [hres]; exact List.getLast?_concat _
  · intro hne
    have hbrands0 : (real_pipeline env text none platform ctx now).brands
        = resolve_conflicts (attribute_engine env.local_sentiment
            (env.clean text platform)
            (env.detect (env.clean text platform))
            (env.sentiment_predict (env.clean text platform))
            (env.sarcasm_predict (context_window ctx (env.clean text platform)))
            (env.detect_with_positions (env.clean text platform))) := by
      simp only [real_pipeline]
      rw [if_neg hclean]
    rw [hbrands0]
    apply resolve_conflicts_ne_nil
    intro hnil
    have hb2 := attribute_engine_brands env.local_sentiment
      (env.clean text platform) (env.detect (env.clean text platform))
      (env.sentiment_predict (env.clean text platform))
      (env.sarcasm_predict (context_window ctx (env.clean text platform)))
      (env.detect_with_positions (env.clean text platform))
    rw [hnil] at hb2
    simp only [List.map_nil] at hb2
    exact hne hb2.symm

theorem requested_brand_always_present_witness :
    (real_pipeline envId "nice day" (some "Acme") "reddit" [] 0).brands ≠ [] :=
  (requested_brand_always_present envId "nice day" "reddit" [] 0 "Acme"
    (by decide) (by decide) (by decide) (by decide)).1

/-- C4 (counterexample to the claim as stated): when the sarcasm override
fires, the requested-but-undetected brand still appears, but with method
"conflict_resolved", not "default". -/
theorem requested_brand_default_counterexample :
    ((real_pipeline envIdSarc "x" (some "Acme") "reddit" [] 0).brands.map
        (fun r => (r.brand, r.sentiment, r.method)))
      = [("Acme", "negative", "conflict_resolved")]
    ∧ "conflict_resolved" ≠ "default" := by
  have hs : decide ((9:ℚ)/10 > sarcasmThreshold) = true :=
    decide_eq_true (by norm_num [sarcasmThreshold])
  refine ⟨?_, by decide⟩
  simp [real_pipeline, envIdSarc, envId, envPos, attribute_engine, baseEntry,
    sarcInvert, invertLabel, resolve_conflicts, mergeStep, List.contains,
    List.elem, hs]

/-- C3 (amended): the /predict route inserts a CrisisAlert exactly when the
per-post crisis flag of the prediction it just obtained is set; every alert
it inserts carries the constants negative_pct = 0.0, z_score = 0.0,
window_posts = 1 — no rolling-window statistic is consulted. -/
theorem alerts_follow_per_post_flag (stubMode : Bool) (env : PipelineEnv)
    (request : PredictionRequest) (post_id : String) (now : Int) :
    (create_prediction stubMode env request post_id now).2.alerts.length
      = (if (create_prediction stubMode env request post_id now).1.crisis.crisis_flag
         then 1 else 0)
    ∧ ∀ a ∈ (create_prediction stubMode env request post_id now).2.alerts,
        a.negative_pct = 0 ∧ a.z_score = 0 ∧ a.window_posts = 1 := by
  simp only [create_prediction]
  by_cases h : (predict_post stubMode env request.text request.brand
      request.platform request.context_posts now).crisis.crisis_flag = true
  · simp [h]
  · simp [h]

theorem alerts_follow_per_post_flag_witness :
    (create_prediction true envId
        { text := "hello", brand := none, platform := "reddit",
          context_posts := [] } "p" 0).2.alerts.length
      = (if (create_prediction true envId
            { text := "hello", brand := none, platform := "reddit",
              context_posts := [] } "p" 0).1.crisis.crisis_flag
         then 1 else 0) :=
  (alerts_follow_per_post_flag true envId
    { text := "hello", brand := none, platform := "reddit",
      context_posts := [] } "p" 0).1

/-- C3 (counterexample to the claim as stated): a concrete request whose
per-post flag fires makes the route insert a CrisisAlert even though the
spec-modelled aggregator threshold rule, applied to the statistics the
alert itself records (z-score 0, negative percentage 0), does not fire. -/
theorem alert_without_aggregator_counterexample :
    ((create_prediction false envIdNeg
        { text := "bad product", brand := some "Nike", platform := "reddit",
          context_posts := [] } "p1" 0).2.alerts.map
        (fun a => (a.brand, a.alert_type, a.severity, a.message)))
      = [(some "Nike", "spike", some "high", "Crisis detected for Nike")]
    ∧ ((create_prediction false envIdNeg
        { text := "bad product", brand := some "Nike", platform := "reddit",
          context_posts := [] } "p1" 0).2.alerts.map
        (fun a => aggregator_rule_fires a.z_score a.negative_pct))
      = [false] := by
  have h85 : decide ((9:ℚ)/10 > 85/100) = true := decide_eq_true (by norm_num)
  have h1 : decide ((0:ℚ) > z_alert_threshold) = false :=
    decide_eq_false (by norm_num [z_alert_threshold])
  have h2 : decide ((0:ℚ) > negative_pct_ceiling) = false :=
    decide_eq_false (by norm_num [negative_pct_ceiling])
  have hrule : aggregator_rule_fires 0 0 = false := by
    simp [aggregator_rule_fires, h1, h2]
  constructor
  · simp [create_prediction, predict_post, real_pipeline, envIdNeg, envId,
      envPos, attribute_engine, baseEntry, sarcInvert, invertLabel,
      resolve_conflicts, mergeStep, List.contains, List.elem, pyStrOpt, h85]
  · simp [create_prediction, predict_post, real_pipeline, envIdNeg, envId,
      envPos, attribute_engine, baseEntry, sarcInvert, invertLabel,
      resolve_conflicts, mergeStep, List.contains, List.elem, pyStrOpt, h85,
      hrule]
